import Mathlib

/-!
Verification of the emotion-rotation example (`src/examples/basic_usage.c`).

The file embeds the example's globals and functions as a state machine:
`EmoState` carries the observable pieces of process state (whether the GIF
display object exists, the last image source handed to the display sink,
the periodic timer, the rotation index, and an ordered trace of external
effects), and each C function becomes a Lean function on `EmoState`.

Image-asset handles (`lv_img_dsc_t*` values) are modelled as strings naming
the asset; the asset registry `otto_emoji_gif_get_by_name` lives outside
this repository's sources, so the lookup is taken as a parameter
`String → Option String` and quantified over in the theorems.
-/

/-- External effects visible in the trace: display-sink updates
(`lv_gif_set_src`), log lines at each severity (`ESP_LOGI/W/E`),
blocking delays (`vTaskDelay`), and timer creation/deletion
(`lv_timer_create` / `lv_timer_del`). -/
inductive Ev where
  | setSrc (handle : String)
  | logI (msg : String)
  | logW (msg : String)
  | logE (msg : String)
  | delayMs (ms : Nat)
  | timerCreate
  | timerDel
  deriving DecidableEq, Repr

/-- The globals of `basic_usage.c` plus the trace of external effects.
`gifExists` is `emotion_gif != NULL`; `displayed` is the last source set on
the GIF object; `timerExists` is `emotion_timer != NULL`; `timerCount` is
the number of live timers registered with the host (created and not yet
deleted); `currentIndex` is `current_emotion_index`. -/
structure EmoState where
  gifExists : Bool
  displayed : Option String
  timerExists : Bool
  timerCount : Nat
  currentIndex : Nat
  events : List Ev
  deriving DecidableEq, Repr

/-- The fixed rotation sequence `emotion_sequence` of the source. -/
def emotion_sequence : List String :=
  ["staticstate", "happy", "sad", "anger", "scare", "buxue"]

/-- The fallback handle the timer callback hardcodes (`&staticstate`). -/
def ottoFallback : String := "staticstate"

/-- Process start: both globals `NULL`, `current_emotion_index = 0`. -/
def initialState : EmoState :=
  { gifExists := false
    displayed := none
    timerExists := false
    timerCount := 0
    currentIndex := 0
    events := [] }

/-- `emotion_timer_callback`: if the GIF object is `NULL`, return at once;
otherwise read the name at the current index, look it up, display the
found handle (logging at info) or the fallback (logging at warning), and
finally advance the index by one modulo the sequence length. -/
def emotion_timer_callback (lookup : String → Option String)
    (seq : List String) (fallback : String) (s : EmoState) : EmoState :=
  if s.gifExists = false then s
  else
    let name := seq.getD s.currentIndex ""
    let s1 :=
      match lookup name with
      | some h =>
          { s with displayed := some h
                   events := s.events ++ [Ev.setSrc h, Ev.logI ("switch to " ++ name)] }
      | none =>
          { s with displayed := some fallback
                   events := s.events ++ [Ev.logW ("missing " ++ name), Ev.setSrc fallback] }
    { s1 with currentIndex := (s1.currentIndex + 1) % seq.length }

/-- `set_emotion_by_name`: error log and return if the GIF object is `NULL`;
otherwise look the name up, display it on success (info log), or only log a
warning on failure, leaving the display untouched. -/
def set_emotion_by_name (lookup : String → Option String)
    (name : String) (s : EmoState) : EmoState :=
  if s.gifExists = false then
    { s with events := s.events ++ [Ev.logE "gif object uninitialized"] }
  else
    match lookup name with
    | some h =>
        { s with displayed := some h
                 events := s.events ++ [Ev.setSrc h, Ev.logI ("manual set " ++ name)] }
    | none =>
        { s with events := s.events ++ [Ev.logW ("missing " ++ name)] }

/-- `stop_auto_emotion_switch`: delete the timer and null the global if it
exists, else do nothing. -/
def stop_auto_emotion_switch (s : EmoState) : EmoState :=
  if s.timerExists then
    { s with timerExists := false
             timerCount := s.timerCount - 1
             events := s.events ++ [Ev.timerDel, Ev.logI "auto switch stopped"] }
  else s

/-- `start_auto_emotion_switch`: create the timer only when the global is
`NULL`, else do nothing. -/
def start_auto_emotion_switch (s : EmoState) : EmoState :=
  if s.timerExists then s
  else
    { s with timerExists := true
             timerCount := s.timerCount + 1
             events := s.events ++ [Ev.timerCreate, Ev.logI "auto switch started"] }

/-- The host timer firing: it runs `emotion_timer_callback` only while the
timer exists; once `lv_timer_del` has run there is no callback to fire. -/
def timer_fire (lookup : String → Option String)
    (seq : List String) (fallback : String) (s : EmoState) : EmoState :=
  if s.timerExists then emotion_timer_callback lookup seq fallback s else s

/-- `vTaskDelay(pdMS_TO_TICKS(ms))`: a blocking wait, recorded in the trace. -/
def vTaskDelay (ms : Nat) (s : EmoState) : EmoState :=
  { s with events := s.events ++ [Ev.delayMs ms] }

/-- The `for` loop of `demo_all_emotions`: for each name in order, call
`set_emotion_by_name`, then block for 2000 ms. -/
def demo_loop (lookup : String → Option String) :
    List String → EmoState → EmoState
  | [], s => s
  | n :: ns, s => demo_loop lookup ns (vTaskDelay 2000 (set_emotion_by_name lookup n s))

/-- `demo_all_emotions`: log, run the loop over the local fixed list
`all_emotions` (same six names as the rotation sequence), log again. -/
def demo_all_emotions (lookup : String → Option String) (s : EmoState) : EmoState :=
  let s0 := { s with events := s.events ++ [Ev.logI "demo start"] }
  let s1 := demo_loop lookup
      ["staticstate", "happy", "sad", "anger", "scare", "buxue"] s0
  { s1 with events := s1.events ++ [Ev.logI "demo done"] }

/-- `create_emotion_display`: builds the GIF object, shows the initial
`staticstate` asset, and unconditionally creates the rotation timer. -/
def create_emotion_display (s : EmoState) : EmoState :=
  { s with gifExists := true
           displayed := some ottoFallback
           timerExists := true
           timerCount := s.timerCount + 1
           events := s.events ++
             [Ev.logI "version", Ev.logI "count", Ev.setSrc ottoFallback,
              Ev.timerCreate, Ev.logI "display created"] }

/-- Iterated timer callback (the timer firing `n` times in a row with the
GIF object alive). -/
def tickN (lookup : String → Option String) (seq : List String)
    (fallback : String) : Nat → EmoState → EmoState
  | 0, s => s
  | n + 1, s => tickN lookup seq fallback n (emotion_timer_callback lookup seq fallback s)

/-- The option displayed after each of `n` successive callbacks. -/
def displayedTrace (lookup : String → Option String) (seq : List String)
    (fallback : String) : Nat → EmoState → List (Option String)
  | 0, _ => []
  | n + 1, s =>
      let s1 := emotion_timer_callback lookup seq fallback s
      s1.displayed :: displayedTrace lookup seq fallback n s1

/-- Modelled from the spec: the example scenario's registry, holding only
the names "a" and "b" (each mapped to a handle of the same name); the
registry implementation itself is outside `src/`. -/
def scenarioLookup : String → Option String :=
  fun n => if n = "a" ∨ n = "b" then some n else none

/-- The example scenario's starting state: display object constructed,
index 0. -/
def scenarioState : EmoState :=
  { gifExists := true
    displayed := none
    timerExists := true
    timerCount := 1
    currentIndex := 0
    events := [] }

/-! ### Helper lemmas -/

/-- The callback is the identity while the GIF object is `NULL`. -/
lemma emotion_timer_callback_uninit (lookup : String → Option String)
    (seq : List String) (fb : String) (s : EmoState) (hg : s.gifExists = false) :
    emotion_timer_callback lookup seq fb s = s := by
  unfold emotion_timer_callback
  simp [hg]

/-- With the GIF object alive, the callback advances the index by one
modulo the sequence length. -/
lemma emotion_timer_callback_currentIndex (lookup : String → Option String)
    (seq : List String) (fb : String) (s : EmoState) (hg : s.gifExists = true) :
    (emotion_timer_callback lookup seq fb s).currentIndex
      = (s.currentIndex + 1) % seq.length := by
  unfold emotion_timer_callback
  simp only [hg]
  simp only [Bool.true_eq_false, if_false]
  split <;> rfl

/-- The callback never creates or destroys the GIF object. -/
lemma emotion_timer_callback_gifExists (lookup : String → Option String)
    (seq : List String) (fb : String) (s : EmoState) :
    (emotion_timer_callback lookup seq fb s).gifExists = s.gifExists := by
  unfold emotion_timer_callback
  cases hg : s.gifExists
  · simp [hg]
  · simp only [hg, Bool.true_eq_false, if_false]
    split <;> rfl

/-- `set_emotion_by_name` never touches the rotation index. -/
lemma set_emotion_by_name_currentIndex (lookup : String → Option String)
    (name : String) (s : EmoState) :
    (set_emotion_by_name lookup name s).currentIndex = s.currentIndex := by
  unfold set_emotion_by_name
  cases hg : s.gifExists <;> cases hl : lookup name <;> simp [hg, hl]

/-- The demo loop never touches the rotation index. -/
lemma demo_loop_currentIndex (lookup : String → Option String)
    (l : List String) (s : EmoState) :
    (demo_loop lookup l s).currentIndex = s.currentIndex := by
  induction l generalizing s with
  | nil => rfl
  | cons n ns ih =>
      rw [demo_loop, ih]
      simp [vTaskDelay, set_emotion_by_name_currentIndex]

/-- `demo_all_emotions` never touches the rotation index. -/
lemma demo_all_emotions_currentIndex (lookup : String → Option String)
    (s : EmoState) :
    (demo_all_emotions lookup s).currentIndex = s.currentIndex := by
  unfold demo_all_emotions
  simp [demo_loop_currentIndex]

/-- `start_auto_emotion_switch` never touches the rotation index. -/
lemma start_currentIndex (s : EmoState) :
    (start_auto_emotion_switch s).currentIndex = s.currentIndex := by
  unfold start_auto_emotion_switch
  split <;> rfl

/-- `stop_auto_emotion_switch` never touches the rotation index. -/
lemma stop_currentIndex (s : EmoState) :
    (stop_auto_emotion_switch s).currentIndex = s.currentIndex := by
  unfold stop_auto_emotion_switch
  split <;> rfl

/-! ### Claim theorems -/

/-- C10: `set_emotion_by_name` and `demo_all_emotions` never modify
`current_emotion_index`: for every state and every name, resolved or not,
the rotation position after a manual override equals the rotation position
before it. -/
theorem manual_override_preserves_rotation_index
    (lookup : String → Option String) (name : String) (s : EmoState) :
    (set_emotion_by_name lookup name s).currentIndex = s.currentIndex ∧
    (demo_all_emotions lookup s).currentIndex = s.currentIndex :=
  ⟨set_emotion_by_name_currentIndex lookup name s,
   demo_all_emotions_currentIndex lookup s⟩

/-- C6: `start_auto_emotion_switch` is idempotent — starting twice equals
starting once, the timer exists afterwards, and starting from a stopped
state registers exactly one new timer even across two consecutive calls
(no duplicate timer is created). -/
theorem start_auto_emotion_switch_idempotent (s : EmoState) :
    start_auto_emotion_switch (start_auto_emotion_switch s)
      = start_auto_emotion_switch s ∧
    (start_auto_emotion_switch s).timerExists = true ∧
    (s.timerExists = false →
      (start_auto_emotion_switch (start_auto_emotion_switch s)).timerCount
        = s.timerCount + 1) := by
  unfold start_auto_emotion_switch
  cases h : s.timerExists <;> simp [h]

/-- Witness for C6 at the freshly started process state. -/
theorem start_auto_emotion_switch_idempotent_witness :
    initialState.timerExists = false ∧
    (start_auto_emotion_switch (start_auto_emotion_switch initialState)
        = start_auto_emotion_switch initialState ∧
     (start_auto_emotion_switch initialState).timerExists = true ∧
     (initialState.timerExists = false →
       (start_auto_emotion_switch (start_auto_emotion_switch initialState)).timerCount
         = initialState.timerCount + 1)) :=
  ⟨rfl, start_auto_emotion_switch_idempotent initialState⟩

/-- C7: `stop_auto_emotion_switch` halts rotation — it is the identity when
already stopped, always leaves the timer absent, a timer firing after it
changes nothing at all (`timer_fire` is the identity there), and a later
`start_auto_emotion_switch` brings the timer back. -/
theorem stop_halts_rotation (lookup : String → Option String)
    (seq : List String) (fb : String) (s : EmoState) :
    (s.timerExists = false → stop_auto_emotion_switch s = s) ∧
    (stop_auto_emotion_switch s).timerExists = false ∧
    timer_fire lookup seq fb (stop_auto_emotion_switch s)
      = stop_auto_emotion_switch s ∧
    (start_auto_emotion_switch (stop_auto_emotion_switch s)).timerExists = true := by
  unfold stop_auto_emotion_switch timer_fire start_auto_emotion_switch
  cases h : s.timerExists <;> simp [h]

/-- Witness for C7 at the freshly created display state. -/
theorem stop_halts_rotation_witness :
    ((create_emotion_display initialState).timerExists = false →
        stop_auto_emotion_switch (create_emotion_display initialState)
          = create_emotion_display initialState) ∧
    (stop_auto_emotion_switch (create_emotion_display initialState)).timerExists
      = false ∧
    timer_fire (fun _ => none) emotion_sequence ottoFallback
        (stop_auto_emotion_switch (create_emotion_display initialState))
      = stop_auto_emotion_switch (create_emotion_display initialState) ∧
    (start_auto_emotion_switch
        (stop_auto_emotion_switch (create_emotion_display initialState))).timerExists
      = true :=
  stop_halts_rotation (fun _ => none) emotion_sequence ottoFallback
    (create_emotion_display initialState)

/-- C3: `set_emotion_by_name` on a name the registry does not resolve
leaves the whole state unchanged except for appending exactly one warning
diagnostic — in particular the displayed handle stays what it was (no
fallback substitution). -/
theorem set_by_name_missing_preserves_display (lookup : String → Option String)
    (name : String) (s : EmoState)
    (hg : s.gifExists = true) (hm : lookup name = none) :
    set_emotion_by_name lookup name s
      = { s with events := s.events ++ [Ev.logW ("missing " ++ name)] } := by
  unfold set_emotion_by_name
  simp [hg, hm]

/-- Witness for C3: a missing name against an empty registry, right after
display creation. -/
theorem set_by_name_missing_preserves_display_witness :
    (create_emotion_display initialState).gifExists = true ∧
    (fun _ : String => (none : Option String)) "nosuch" = none ∧
    set_emotion_by_name (fun _ => none) "nosuch" (create_emotion_display initialState)
      = { create_emotion_display initialState with
          events := (create_emotion_display initialState).events
            ++ [Ev.logW ("missing " ++ "nosuch")] } :=
  ⟨rfl, rfl,
   set_by_name_missing_preserves_display (fun _ => none) "nosuch"
     (create_emotion_display initialState) rfl rfl⟩

/-- C2: a tick whose current sequence name does not resolve forwards the
fallback handle to the display sink, appends exactly one warning
diagnostic, still advances the index modulo the sequence length, and
leaves the timer alone (rotation continues). -/
theorem tick_missing_name_uses_fallback (lookup : String → Option String)
    (seq : List String) (fb : String) (s : EmoState)
    (hg : s.gifExists = true)
    (hm : lookup (seq.getD s.currentIndex "") = none) :
    (emotion_timer_callback lookup seq fb s).displayed = some fb ∧
    (emotion_timer_callback lookup seq fb s).currentIndex
      = (s.currentIndex + 1) % seq.length ∧
    (emotion_timer_callback lookup seq fb s).timerExists = s.timerExists ∧
    (emotion_timer_callback lookup seq fb s).events
      = s.events ++ [Ev.logW ("missing " ++ seq.getD s.currentIndex ""), Ev.setSrc fb] := by
  simp only [List.getD_eq_getElem?_getD] at hm
  unfold emotion_timer_callback
  simp [hg, hm]

/-- Witness for C2: an empty registry right after display creation; the
fallback is the hardcoded `staticstate` handle. -/
theorem tick_missing_name_uses_fallback_witness :
    (create_emotion_display initialState).gifExists = true ∧
    (fun _ : String => (none : Option String))
        (emotion_sequence.getD (create_emotion_display initialState).currentIndex "")
      = none ∧
    (emotion_timer_callback (fun _ => none) emotion_sequence ottoFallback
        (create_emotion_display initialState)).displayed = some ottoFallback ∧
    (emotion_timer_callback (fun _ => none) emotion_sequence ottoFallback
        (create_emotion_display initialState)).currentIndex
      = ((create_emotion_display initialState).currentIndex + 1) % emotion_sequence.length ∧
    (emotion_timer_callback (fun _ => none) emotion_sequence ottoFallback
        (create_emotion_display initialState)).timerExists
      = (create_emotion_display initialState).timerExists ∧
    (emotion_timer_callback (fun _ => none) emotion_sequence ottoFallback
        (create_emotion_display initialState)).events
      = (create_emotion_display initialState).events
        ++ [Ev.logW ("missing "
              ++ emotion_sequence.getD (create_emotion_display initialState).currentIndex ""),
            Ev.setSrc ottoFallback] :=
  ⟨rfl, rfl,
   tick_missing_name_uses_fallback (fun _ => none) emotion_sequence ottoFallback
     (create_emotion_display initialState) rfl rfl⟩

/-- C5 counterexample: a timer tick arriving before the GIF object is
created returns at once without logging anything — the resulting state is
unchanged and its (empty) trace holds no error-level entry, so the claim
that the condition is logged at error level fails for ticks. -/
theorem uninitialized_tick_logs_counterexample :
    emotion_timer_callback scenarioLookup emotion_sequence ottoFallback initialState
      = initialState ∧
    (emotion_timer_callback scenarioLookup emotion_sequence ottoFallback
        initialState).events = [] :=
  ⟨rfl, rfl⟩

/-- C5 (amended): every operation invoked before the display object is
constructed is a no-op on the display and rotation state; the manual
`set_emotion_by_name` logs the condition at error level, while the timer
callback returns silently without logging anything. -/
theorem uninitialized_ops_are_noops (lookup : String → Option String)
    (seq : List String) (fb : String) (name : String) (s : EmoState)
    (hg : s.gifExists = false) :
    emotion_timer_callback lookup seq fb s = s ∧
    set_emotion_by_name lookup name s
      = { s with events := s.events ++ [Ev.logE "gif object uninitialized"] } := by
  unfold emotion_timer_callback set_emotion_by_name
  simp [hg]

/-- Witness for C5's amended statement at the fresh process state. -/
theorem uninitialized_ops_are_noops_witness :
    initialState.gifExists = false ∧
    (emotion_timer_callback (fun _ => none) emotion_sequence ottoFallback initialState
        = initialState ∧
     set_emotion_by_name (fun _ => none) "happy" initialState
        = { initialState with
            events := initialState.events ++ [Ev.logE "gif object uninitialized"] }) :=
  ⟨rfl, uninitialized_ops_are_noops (fun _ => none) emotion_sequence ottoFallback
    "happy" initialState rfl⟩

/-- C1 counterexample: in the spec's own scenario (sequence
`["a","b","c"]`, registry holding only `a` and `b`, fallback `"default"`,
starting index 0) the first tick displays `"a"` — the name at the current
index — not `"b"` as the claim's advance-then-display order would give. -/
theorem tick_advance_then_display_counterexample :
    (emotion_timer_callback scenarioLookup ["a", "b", "c"] "default"
        scenarioState).displayed = some "a" ∧
    (some "a" : Option String) ≠ some "b" := by
  constructor
  · decide
  · decide

/-- C1 (amended): each tick first resolves and displays the name at the
current index (the registry's handle on success, the fallback on a miss)
and only then advances `current_index` by 1 modulo the sequence length; in
the spec's scenario the successive ticks therefore display
a, b, default, a, b, default, … . -/
theorem tick_display_then_advance (lookup : String → Option String)
    (seq : List String) (fb : String) (s : EmoState)
    (hg : s.gifExists = true) :
    (emotion_timer_callback lookup seq fb s).displayed
      = some ((lookup (seq.getD s.currentIndex "")).getD fb) ∧
    (emotion_timer_callback lookup seq fb s).currentIndex
      = (s.currentIndex + 1) % seq.length ∧
    displayedTrace scenarioLookup ["a", "b", "c"] "default" 6 scenarioState
      = [some "a", some "b", some "default",
         some "a", some "b", some "default"] := by
  refine ⟨?_, emotion_timer_callback_currentIndex lookup seq fb s hg, by decide⟩
  unfold emotion_timer_callback
  simp only [hg, Bool.true_eq_false, if_false]
  cases hl : lookup (seq[s.currentIndex]?.getD "") <;>
    simp [List.getD_eq_getElem?_getD, hl]

/-- Witness for C1's amended statement at the scenario state. -/
theorem tick_display_then_advance_witness :
    scenarioState.gifExists = true ∧
    ((emotion_timer_callback scenarioLookup ["a", "b", "c"] "default"
        scenarioState).displayed
      = some ((scenarioLookup
          ((["a", "b", "c"] : List String).getD scenarioState.currentIndex "")).getD
            "default") ∧
     (emotion_timer_callback scenarioLookup ["a", "b", "c"] "default"
        scenarioState).currentIndex
      = (scenarioState.currentIndex + 1) % (["a", "b", "c"] : List String).length ∧
     displayedTrace scenarioLookup ["a", "b", "c"] "default" 6 scenarioState
      = [some "a", some "b", some "default",
         some "a", some "b", some "default"]) :=
  ⟨rfl, tick_display_then_advance scenarioLookup ["a", "b", "c"] "default"
    scenarioState rfl⟩

/-- After `n + 1` callbacks on a live display, the index has advanced by
`n + 1` modulo the length 6 of `emotion_sequence`. -/
lemma tickN_succ_currentIndex (lookup : String → Option String) (fb : String) :
    ∀ (n : Nat) (s : EmoState), s.gifExists = true →
      (tickN lookup emotion_sequence fb (n + 1) s).currentIndex
        = (s.currentIndex + (n + 1)) % 6 := by
  intro n
  induction n with
  | zero =>
      intro s hg
      show (emotion_timer_callback lookup emotion_sequence fb s).currentIndex = _
      rw [emotion_timer_callback_currentIndex lookup emotion_sequence fb s hg]
      rfl
  | succ n ih =>
      intro s hg
      have hg1 : (emotion_timer_callback lookup emotion_sequence fb s).gifExists
          = true := by
        rw [emotion_timer_callback_gifExists]; exact hg
      show (tickN lookup emotion_sequence fb (n + 1)
          (emotion_timer_callback lookup emotion_sequence fb s)).currentIndex = _
      rw [ih _ hg1, emotion_timer_callback_currentIndex lookup emotion_sequence fb s hg]
      show ((s.currentIndex + 1) % 6 + (n + 1)) % 6 = _
      omega

/-- C4: with the display object alive and the index in its documented
range, firing the callback exactly six times — the length of
`emotion_sequence` — returns `current_emotion_index` to its starting
value, whatever the registry resolves. -/
theorem tick_six_times_restores_index (lookup : String → Option String)
    (s : EmoState) (hg : s.gifExists = true) (hi : s.currentIndex < 6) :
    (tickN lookup emotion_sequence ottoFallback 6 s).currentIndex
      = s.currentIndex := by
  have h : (tickN lookup emotion_sequence ottoFallback 6 s).currentIndex
      = (s.currentIndex + 6) % 6 :=
    tickN_succ_currentIndex lookup ottoFallback 5 s hg
  rw [h]
  omega

/-- Witness for C4 with an empty registry right after display creation. -/
theorem tick_six_times_restores_index_witness :
    (create_emotion_display initialState).gifExists = true ∧
    (create_emotion_display initialState).currentIndex < 6 ∧
    (tickN (fun _ => none) emotion_sequence ottoFallback 6
        (create_emotion_display initialState)).currentIndex
      = (create_emotion_display initialState).currentIndex :=
  ⟨rfl, by decide,
   tick_six_times_restores_index (fun _ => none)
     (create_emotion_display initialState) rfl (by decide)⟩

/-- C9: `current_emotion_index` starts at 0 and stays in `[0, 6)` — the
callback, the manual override, start, stop and the demo loop all preserve
the bound. -/
theorem current_index_stays_in_range (lookup : String → Option String)
    (name : String) (s : EmoState) (hi : s.currentIndex < 6) :
    initialState.currentIndex = 0 ∧
    (emotion_timer_callback lookup emotion_sequence ottoFallback s).currentIndex < 6 ∧
    (set_emotion_by_name lookup name s).currentIndex < 6 ∧
    (start_auto_emotion_switch s).currentIndex < 6 ∧
    (stop_auto_emotion_switch s).currentIndex < 6 ∧
    (demo_all_emotions lookup s).currentIndex < 6 := by
  refine ⟨rfl, ?_, ?_, ?_, ?_, ?_⟩
  · cases hg : s.gifExists
    · rw [emotion_timer_callback_uninit lookup emotion_sequence ottoFallback s hg]
      exact hi
    · rw [emotion_timer_callback_currentIndex lookup emotion_sequence ottoFallback s hg]
      show (s.currentIndex + 1) % 6 < 6
      omega
  · rw [set_emotion_by_name_currentIndex]; exact hi
  · rw [start_currentIndex]; exact hi
  · rw [stop_currentIndex]; exact hi
  · rw [demo_all_emotions_currentIndex]; exact hi

/-- Witness for C9 at the fresh process state. -/
theorem current_index_stays_in_range_witness :
    initialState.currentIndex < 6 ∧
    (initialState.currentIndex = 0 ∧
     (emotion_timer_callback (fun _ => none) emotion_sequence ottoFallback
        initialState).currentIndex < 6 ∧
     (set_emotion_by_name (fun _ => none) "happy" initialState).currentIndex < 6 ∧
     (start_auto_emotion_switch initialState).currentIndex < 6 ∧
     (stop_auto_emotion_switch initialState).currentIndex < 6 ∧
     (demo_all_emotions (fun _ => none) initialState).currentIndex < 6) :=
  ⟨by decide,
   current_index_stays_in_range (fun _ => none) "happy" initialState (by decide)⟩

/-- C8: `demo_all_emotions` is exactly the sequential composition of
`set_emotion_by_name` followed by a 2000 ms blocking delay for each entry
of the fixed demonstration list — staticstate, happy, sad, anger, scare,
buxue, in that order; with a live display and a registry resolving every
name, the emitted trace shows the six display updates in list order with
a delay between consecutive entries. -/
theorem demo_all_sequential (lookup : String → Option String) (s : EmoState) :
    demo_all_emotions lookup s
      = (let s0 := { s with events := s.events ++ [Ev.logI "demo start"] }
         let s1 := vTaskDelay 2000 (set_emotion_by_name lookup "staticstate" s0)
         let s2 := vTaskDelay 2000 (set_emotion_by_name lookup "happy" s1)
         let s3 := vTaskDelay 2000 (set_emotion_by_name lookup "sad" s2)
         let s4 := vTaskDelay 2000 (set_emotion_by_name lookup "anger" s3)
         let s5 := vTaskDelay 2000 (set_emotion_by_name lookup "scare" s4)
         let s6 := vTaskDelay 2000 (set_emotion_by_name lookup "buxue" s5)
         { s6 with events := s6.events ++ [Ev.logI "demo done"] }) ∧
    (demo_all_emotions (fun n => some n) (create_emotion_display initialState)).events
      = (create_emotion_display initialState).events
        ++ [Ev.logI "demo start",
            Ev.setSrc "staticstate", Ev.logI "manual set staticstate", Ev.delayMs 2000,
            Ev.setSrc "happy", Ev.logI "manual set happy", Ev.delayMs 2000,
            Ev.setSrc "sad", Ev.logI "manual set sad", Ev.delayMs 2000,
            Ev.setSrc "anger", Ev.logI "manual set anger", Ev.delayMs 2000,
            Ev.setSrc "scare", Ev.logI "manual set scare", Ev.delayMs 2000,
            Ev.setSrc "buxue", Ev.logI "manual set buxue", Ev.delayMs 2000,
            Ev.logI "demo done"] :=
  ⟨rfl, by decide⟩
